import Mathlib

/-!
# Verification of the ProctorDiary server

Shallow embedding of the ProctorDiary student/proctor management system:
the relational store (`shared/schema.ts`), the data-access layer
(`server/storage.ts`, class `DatabaseStorage`) and the HTTP route handlers
(`server/routes.ts`, `server/auth.ts`), together with theorems settling the
spec claims about password reset, query lifecycle, authorization, and the
attendance / academic aggregation endpoints.

Conventions of the embedding:
* Database tables are Lean lists of rows; `serial` primary keys are `Nat`.
* SQL timestamps are `Nat` milliseconds; `new Date()` is an explicit `now`
  argument threaded through the handlers.
* Nullable columns are `Option`; `real` columns are `ℚ`.
* Library primitives outside the repository (scrypt password hashing,
  zod's email-format regex, `randomBytes`) are handler parameters, so every
  theorem quantifies over them.
* Each Express handler is a pure function from the request data and the
  store to an HTTP response (status code and `message` field) and the
  updated store.
-/

namespace ProctorDiary

/-- `role` enum of `shared/schema.ts` (`roleEnum`). -/
inductive Role where
  | student
  | proctor
deriving DecidableEq

/-- `query_status` enum of `shared/schema.ts` (`queryStatusEnum`). -/
inductive QueryStatus where
  | pending
  | in_progress
  | resolved
  | closed
deriving DecidableEq

/-- Row of the `users` table. -/
structure User where
  id : Nat
  email : String
  username : String
  password : String
  role : Role
  name : String
  createdAt : Nat
deriving DecidableEq

/-- Row of the `student_profiles` table (`proctorId` is nullable). -/
structure StudentProfile where
  id : Nat
  userId : Nat
  studentId : String
  department : String
  proctorId : Option Nat
  semester : Nat
  cgpa : ℚ
deriving DecidableEq

/-- Row of the `proctor_profiles` table. -/
structure ProctorProfile where
  id : Nat
  userId : Nat
  facultyId : String
  department : String
  phone : String
  designation : String
deriving DecidableEq

/-- Row of the `attendance` table. -/
structure AttendanceRow where
  id : Nat
  studentId : Nat
  courseId : String
  courseName : String
  date : Nat
  isPresent : Bool
deriving DecidableEq

/-- Row of the `academic_records` table; the four mark columns are nullable
`real`s (the route handlers read them with `?? 0`). -/
structure AcademicRecord where
  id : Nat
  studentId : Nat
  courseId : String
  courseName : String
  semester : Nat
  internalMarks : Option ℚ
  quizMarks : Option ℚ
  projectMarks : Option ℚ
  semesterMarks : Option ℚ
  cgpa : ℚ
deriving DecidableEq

/-- Row of the `queries` table; `status` defaults to `pending` on insert. -/
structure Query where
  id : Nat
  studentId : Nat
  proctorId : Nat
  subject : String
  description : String
  status : QueryStatus
  createdAt : Nat
  updatedAt : Nat
deriving DecidableEq

/-- Row of the `query_responses` table. -/
structure QueryResponse where
  id : Nat
  queryId : Nat
  userId : Nat
  response : String
  createdAt : Nat
deriving DecidableEq

/-- Row of the `password_reset_tokens` table (`usedAt` is nullable). -/
structure PasswordResetToken where
  id : Nat
  userId : Nat
  token : String
  expiresAt : Nat
  createdAt : Nat
  usedAt : Option Nat
deriving DecidableEq

/-- The relational store: one list per table. -/
structure Store where
  users : List User
  studentProfiles : List StudentProfile
  proctorProfiles : List ProctorProfile
  attendance : List AttendanceRow
  academicRecords : List AcademicRecord
  queries : List Query
  queryResponses : List QueryResponse
  passwordResetTokens : List PasswordResetToken
deriving DecidableEq

/-- Fresh `serial` id for an insert: one more than the largest id in use. -/
def freshId (ids : List Nat) : Nat := ids.foldr max 0 + 1

/-! ## Data-access layer (`server/storage.ts`, class `DatabaseStorage`) -/

/-- `DatabaseStorage.getUser`. -/
def getUser (s : Store) (id : Nat) : Option User :=
  s.users.find? (fun u => u.id == id)

/-- `DatabaseStorage.getUserByEmail`. -/
def getUserByEmail (s : Store) (email : String) : Option User :=
  s.users.find? (fun u => u.email == email)

/-- `DatabaseStorage.getStudentProfile` (lookup by `userId`). -/
def getStudentProfile (s : Store) (userId : Nat) : Option StudentProfile :=
  s.studentProfiles.find? (fun p => p.userId == userId)

/-- `DatabaseStorage.getStudentProfileById` (lookup by profile `id`). -/
def getStudentProfileById (s : Store) (id : Nat) : Option StudentProfile :=
  s.studentProfiles.find? (fun p => p.id == id)

/-- `DatabaseStorage.getProctorProfile` (lookup by `userId`). -/
def getProctorProfile (s : Store) (userId : Nat) : Option ProctorProfile :=
  s.proctorProfiles.find? (fun p => p.userId == userId)

/-- `DatabaseStorage.getProctorProfileById` (lookup by profile `id`). -/
def getProctorProfileById (s : Store) (id : Nat) : Option ProctorProfile :=
  s.proctorProfiles.find? (fun p => p.id == id)

/-- `DatabaseStorage.getStudentAttendance`. -/
def getStudentAttendance (s : Store) (studentId : Nat) : List AttendanceRow :=
  s.attendance.filter (fun r => r.studentId == studentId)

/-- `DatabaseStorage.getStudentAcademicRecords`. -/
def getStudentAcademicRecords (s : Store) (studentId : Nat) : List AcademicRecord :=
  s.academicRecords.filter (fun r => r.studentId == studentId)

/-- `DatabaseStorage.getQueryById`. -/
def getQueryById (s : Store) (id : Nat) : Option Query :=
  s.queries.find? (fun q => q.id == id)

/-- `DatabaseStorage.createQuery`: the insert value (`InsertQuery`) carries no
`status`, `createdAt` or `updatedAt` fields, so the column defaults
(`pending`, `now`) apply. -/
def createQuery (s : Store) (now studentId proctorId : Nat)
    (subject description : String) : Query × Store :=
  let q : Query :=
    { id := freshId (s.queries.map (fun q => q.id)), studentId := studentId,
      proctorId := proctorId, subject := subject, description := description,
      status := QueryStatus.pending, createdAt := now, updatedAt := now }
  (q, { s with queries := s.queries ++ [q] })

/-- `DatabaseStorage.updateQueryStatus`: `set({ status, updatedAt: new Date() })`
on the row whose id matches, returning the updated row (or none). -/
def updateQueryStatus (s : Store) (now id : Nat) (status : QueryStatus) :
    Option Query × Store :=
  let qs := s.queries.map (fun q =>
    if q.id == id then { q with status := status, updatedAt := now } else q)
  (qs.find? (fun q => q.id == id), { s with queries := qs })

/-- `DatabaseStorage.createQueryResponse`. -/
def createQueryResponse (s : Store) (now queryId userId : Nat)
    (response : String) : QueryResponse × Store :=
  let r : QueryResponse :=
    { id := freshId (s.queryResponses.map (fun r => r.id)), queryId := queryId,
      userId := userId, response := response, createdAt := now }
  (r, { s with queryResponses := s.queryResponses ++ [r] })

/-- `DatabaseStorage.getStudentsByProctor`: resolves the proctor profile by id,
then filters student profiles on `proctorId`. -/
def getStudentsByProctor (s : Store) (proctorProfileId : Nat) :
    List StudentProfile :=
  match getProctorProfileById s proctorProfileId with
  | none => []
  | some pp => s.studentProfiles.filter (fun sp => sp.proctorId == some pp.id)

/-- `DatabaseStorage.createPasswordResetToken` (insert value has no `usedAt`,
which therefore defaults to null). -/
def createPasswordResetToken (s : Store) (now userId : Nat)
    (token : String) (expiresAt : Nat) : PasswordResetToken × Store :=
  let t : PasswordResetToken :=
    { id := freshId (s.passwordResetTokens.map (fun t => t.id)),
      userId := userId, token := token, expiresAt := expiresAt,
      createdAt := now, usedAt := none }
  (t, { s with passwordResetTokens := s.passwordResetTokens ++ [t] })

/-- `DatabaseStorage.getPasswordResetToken`: the `where` clause is
`and(eq(token, token), isNotNull(usedAt), gt(expiresAt, new Date()))`.
Note the `isNotNull`: the row is returned only when `usedAt` is NOT null. -/
def getPasswordResetToken (s : Store) (now : Nat) (token : String) :
    Option PasswordResetToken :=
  s.passwordResetTokens.find? (fun t =>
    t.token == token && t.usedAt.isSome && decide (now < t.expiresAt))

/-- `DatabaseStorage.markTokenAsUsed`: sets `usedAt` to now on the matching row. -/
def markTokenAsUsed (s : Store) (now : Nat) (token : String) :
    Option PasswordResetToken × Store :=
  let ts := s.passwordResetTokens.map (fun t =>
    if t.token == token then { t with usedAt := some now } else t)
  (ts.find? (fun t => t.token == token), { s with passwordResetTokens := ts })

/-- `DatabaseStorage.deleteExpiredTokens`: deletes rows that are expired
(`expiresAt < now`) or already used (`usedAt` not null). -/
def deleteExpiredTokens (s : Store) (now : Nat) : Store :=
  { s with passwordResetTokens := s.passwordResetTokens.filter (fun t =>
      !(decide (t.expiresAt < now) || t.usedAt.isSome)) }

/-- `DatabaseStorage.updateUserPassword`. -/
def updateUserPassword (s : Store) (userId : Nat) (hashedPassword : String) :
    Option User × Store :=
  let us := s.users.map (fun u =>
    if u.id == userId then { u with password := hashedPassword } else u)
  (us.find? (fun u => u.id == userId), { s with users := us })

/-! ## Grouping folds

The route handlers aggregate rows into a JS object keyed by `courseName`
(`forEach` in `GET /api/student/attendance`, `reduce` in
`GET /api/proctor/academic`).  An object with string keys in insertion order
is an association list; the accumulator pattern `obj[k] ? update : insert`
is the fold step `gstep`. -/

/-- One step of the JS object-accumulator pattern: if a binding for the key of
`b` exists it is updated with `upd`, otherwise a fresh binding `ini b` is
appended (JS objects keep insertion order). -/
def gstep (key : β → String) (upd : β → α → α) (ini : β → α)
    (acc : List (String × α)) (b : β) : List (String × α) :=
  if acc.any (fun p => p.1 == key b) then
    acc.map (fun p => if p.1 == key b then (p.1, upd b p.2) else p)
  else
    acc ++ [(key b, ini b)]

/-- Folding a whole row list into the keyed accumulator object. -/
def gfold (key : β → String) (upd : β → α → α) (ini : β → α)
    (l : List β) : List (String × α) :=
  l.foldl (gstep key upd ini) []

/-! ## HTTP layer -/

/-- The part of an HTTP response the claims observe: status code and the
`message` field of the JSON body (empty for success payloads). -/
structure Resp where
  status : Nat
  message : String
deriving DecidableEq

/-- `Number(x.toFixed(2))` on a non-negative value: round to two decimal
places, ties upward (ECMA `toFixed` picks the larger candidate on a tie). -/
def round2 (q : ℚ) : ℚ := ((q * 100 + 1/2).floor : ℚ) / 100

/-! ### Request bodies

Express `req.body` fields are untyped; a field is modelled as `Option`,
`none` standing for a missing (or non-string / non-enum) value, which is
exactly what makes the zod `safeParse` calls fail. -/

/-- Body of `POST /api/student/queries`.  The `status` field records any
status value a client might try to smuggle in; the handler never reads it. -/
structure QueryBody where
  subject : Option String
  description : Option String
  status : Option QueryStatus
deriving DecidableEq

/-- Body of the two respond endpoints. -/
structure RespondBody where
  response : Option String
deriving DecidableEq

/-- Body of `PATCH /api/proctor/queries/:id/status`; `some st` iff the raw
field was one of the four enum literals (`z.enum` otherwise fails). -/
structure StatusBody where
  status : Option QueryStatus
deriving DecidableEq

/-- Body of `POST /api/forgot-password`. -/
structure ForgotBody where
  email : Option String
  role : Option Role
deriving DecidableEq

/-- Body of `POST /api/reset-password`. -/
structure ResetBody where
  token : Option String
  newPassword : Option String
deriving DecidableEq

/-- Body of `POST /api/login`. -/
structure LoginBody where
  email : Option String
  password : Option String
  role : Option Role
deriving DecidableEq

/-- `insertQuerySchema` (`shared/schema.ts`):
`createInsertSchema(queries).omit({ id, status, createdAt, updatedAt })`.
drizzle-zod turns the `notNull` text columns `subject` and `description` into
plain required `z.string()` fields — present strings of ANY length parse; no
minimum-length constraint exists in this schema.  The numeric ids in the
`queryData` object built by the handler always validate. -/
def insertQuerySchemaAccepts (subject description : Option String) : Bool :=
  subject.isSome && description.isSome

/-- `insertQueryResponseSchema.pick({ response: true })`: a required
`z.string()` for `response`. -/
def insertQueryResponseSchemaAccepts (b : RespondBody) : Bool :=
  b.response.isSome

/-- `passwordResetSchema`: `token` a required string, `newPassword` a string
of length at least 6. -/
def passwordResetSchemaAccepts (b : ResetBody) : Bool :=
  b.token.isSome &&
    (match b.newPassword with
     | some p => decide (6 ≤ p.length)
     | none => false)

/-- `passwordResetRequestSchema`: an email passing zod's format check
(`emailOk` parameter) and a role literal. -/
def forgotSchemaAccepts (emailOk : String → Bool) (b : ForgotBody) : Bool :=
  (match b.email with
   | some e => emailOk e
   | none => false) && b.role.isSome

/-- `loginSchema`: email format, password of length at least 6, role literal. -/
def loginSchemaAccepts (emailOk : String → Bool) (b : LoginBody) : Bool :=
  (match b.email with
   | some e => emailOk e
   | none => false) &&
  (match b.password with
   | some p => decide (6 ≤ p.length)
   | none => false) && b.role.isSome

/-- String rendering of a role (used in the login role-mismatch message). -/
def roleName : Role → String
  | Role.student => "student"
  | Role.proctor => "proctor"

/-! ### Route handlers (`server/routes.ts`)

Each handler takes the already-authenticated `user : User` (behind
`isAuthenticated`); the `isRole` middleware, which answers
`403 "Access forbidden"` on a role mismatch, is the first check of the
role-guarded handlers. -/

/-- `POST /api/student/queries`: resolve the student profile, require an
assigned proctor, resolve the proctor profile, validate `queryData` against
`insertQuerySchema`, then insert (status defaults to `pending`). -/
def createStudentQuery (s : Store) (user : User) (now : Nat) (b : QueryBody) :
    Resp × Store :=
  if user.role ≠ Role.student then (⟨403, "Access forbidden"⟩, s)
  else
    match getStudentProfile s user.id with
    | none => (⟨404, "Student profile not found"⟩, s)
    | some sp =>
      match sp.proctorId with
      | none => (⟨400, "No proctor assigned to student"⟩, s)
      | some pid =>
        match getProctorProfileById s pid with
        | none => (⟨404, "Proctor not found"⟩, s)
        | some pp =>
          if insertQuerySchemaAccepts b.subject b.description then
            let qs := createQuery s now user.id pp.userId
              (b.subject.getD "") (b.description.getD "")
            (⟨201, ""⟩, qs.2)
          else (⟨400, "Invalid query data"⟩, s)

/-- `POST /api/proctor/queries/:id/respond`: role guard, body validation,
query lookup, ownership check, response insert, and the auto-transition
`pending → in_progress`. -/
def proctorRespond (s : Store) (user : User) (now queryId : Nat)
    (b : RespondBody) : Resp × Store :=
  if user.role ≠ Role.proctor then (⟨403, "Access forbidden"⟩, s)
  else if !(insertQueryResponseSchemaAccepts b) then
    (⟨400, "Invalid response data"⟩, s)
  else
    match getQueryById s queryId with
    | none => (⟨404, "Query not found"⟩, s)
    | some q =>
      if q.proctorId ≠ user.id then
        (⟨403, "You cannot respond to this query"⟩, s)
      else
        let rs := createQueryResponse s now queryId user.id (b.response.getD "")
        let s2 :=
          if q.status = QueryStatus.pending then
            (updateQueryStatus rs.2 now queryId QueryStatus.in_progress).2
          else rs.2
        (⟨201, ""⟩, s2)

/-- `POST /api/queries/:id/respond` (the shared endpoint): body validation,
query lookup, either-party check, response insert — and no status change. -/
def genericRespond (s : Store) (user : User) (now queryId : Nat)
    (b : RespondBody) : Resp × Store :=
  if !(insertQueryResponseSchemaAccepts b) then
    (⟨400, "Invalid response data"⟩, s)
  else
    match getQueryById s queryId with
    | none => (⟨404, "Query not found"⟩, s)
    | some q =>
      if q.studentId ≠ user.id ∧ q.proctorId ≠ user.id then
        (⟨403, "You do not have permission to respond to this query"⟩, s)
      else
        let rs := createQueryResponse s now queryId user.id (b.response.getD "")
        (⟨201, ""⟩, rs.2)

/-- `GET /api/queries/:id`: lookup, then either-party check (a GET — the
store is never written). -/
def viewQuery (s : Store) (user : User) (queryId : Nat) : Resp :=
  match getQueryById s queryId with
  | none => ⟨404, "Query not found"⟩
  | some q =>
    if q.studentId ≠ user.id ∧ q.proctorId ≠ user.id then
      ⟨403, "You do not have permission to view this query"⟩
    else ⟨200, ""⟩

/-- `PATCH /api/proctor/queries/:id/status`: role guard, `statusSchema`
(`z.enum` over the four statuses), lookup, exact-proctor check, update. -/
def patchQueryStatus (s : Store) (user : User) (now queryId : Nat)
    (b : StatusBody) : Resp × Store :=
  if user.role ≠ Role.proctor then (⟨403, "Access forbidden"⟩, s)
  else
    match b.status with
    | none => (⟨400, "Invalid status"⟩, s)
    | some st =>
      match getQueryById s queryId with
      | none => (⟨404, "Query not found"⟩, s)
      | some q =>
        if q.proctorId ≠ user.id then
          (⟨403, "You cannot update this query"⟩, s)
        else
          (⟨200, ""⟩, (updateQueryStatus s now queryId st).2)

/-! ### Attendance aggregation (`GET /api/student/attendance`) -/

/-- Loop body of the `forEach` of `GET /api/student/attendance` on an
existing course entry: `total++`, and `present++` when the row is present
(the pair is `(total, present)`). -/
def attUpd (r : AttendanceRow) (p : Nat × Nat) : Nat × Nat :=
  (p.1 + 1, if r.isPresent then p.2 + 1 else p.2)

/-- First row of a course: the entry starts at `{ total: 0, present: 0 }`
and is immediately incremented. -/
def attIni (r : AttendanceRow) : Nat × Nat :=
  (1, if r.isPresent then 1 else 0)

/-- The `forEach` accumulator of `GET /api/student/attendance`: per course,
`total` is incremented for every row and `present` for present rows. -/
def courseAttendance (rows : List AttendanceRow) : List (String × Nat × Nat) :=
  gfold (fun r => r.courseName) attUpd attIni rows

/-- `total > 0 ? Number(((present / total) * 100).toFixed(2)) : 0`. -/
def pct (present total : Nat) : ℚ :=
  if 0 < total then round2 ((present : ℚ) / (total : ℚ) * 100) else 0

/-- The `courseWise` object of the response: per course
`(courseName, total, present, percentage)`. -/
def studentAttendanceCourseWise (rows : List AttendanceRow) :
    List (String × Nat × Nat × ℚ) :=
  (courseAttendance rows).map (fun p => (p.1, p.2.1, p.2.2, pct p.2.2 p.2.1))

/-- The `overall` object: `overallTotal` and `overallPresent` are summed over
the per-course groups, and the percentage uses the same guarded formula. -/
def studentAttendanceOverall (rows : List AttendanceRow) : Nat × Nat × ℚ :=
  let ot := ((courseAttendance rows).map (fun p => p.2.1)).sum
  let op := ((courseAttendance rows).map (fun p => p.2.2)).sum
  (ot, op, pct op ot)

/-- Per-student attendance percentage computed by `GET /api/proctor/students`:
`totalClasses`/`presentClasses` over all of the student's rows, with the same
zero-total guard. -/
def proctorStudentPct (rows : List AttendanceRow) : ℚ :=
  let totalClasses := rows.length
  let presentClasses := (rows.filter (fun r => r.isPresent)).length
  pct presentClasses totalClasses

/-! ### Academic aggregation (`GET /api/proctor/academic`) -/

/-- Score of one academic record:
`(internalMarks ?? 0) + (quizMarks ?? 0) + (projectMarks ?? 0) + (semesterMarks ?? 0)`. -/
def recordScore (r : AcademicRecord) : ℚ :=
  r.internalMarks.getD 0 + r.quizMarks.getD 0 +
    r.projectMarks.getD 0 + r.semesterMarks.getD 0

/-- The flattened academic records of all students assigned to the proctor
profile `pp` (`students.map(...records...).flat()`). -/
def proctorRecords (s : Store) (pp : ProctorProfile) : List AcademicRecord :=
  ((getStudentsByProctor s pp.id).map
    (fun st => getStudentAcademicRecords s st.id)).flatten

/-- `reduce` body of `GET /api/proctor/academic` on an existing subject
entry: add the record's score and bump the count. -/
def acadUpd (r : AcademicRecord) (p : ℚ × Nat) : ℚ × Nat :=
  (p.1 + recordScore r, p.2 + 1)

/-- First record of a subject: `{ totalScore: score, count: 1 }`. -/
def acadIni (r : AcademicRecord) : ℚ × Nat :=
  (recordScore r, 1)

/-- The `reduce` of `GET /api/proctor/academic`: accumulate
`{ totalScore, count }` per `courseName`. -/
def subjectGroups (records : List AcademicRecord) : List (String × ℚ × Nat) :=
  gfold (fun r => r.courseName) acadUpd acadIni records

/-- `GET /api/proctor/academic`: resolve the proctor profile, gather the
assigned students' records, group by subject, and emit
`(subject, Number((totalScore / count).toFixed(2)))`. -/
def proctorAcademic (s : Store) (user : User) : Resp × List (String × ℚ) :=
  if user.role ≠ Role.proctor then (⟨403, "Access forbidden"⟩, [])
  else
    match getProctorProfile s user.id with
    | none => (⟨404, "Proctor profile not found"⟩, [])
    | some pp =>
      let groups := subjectGroups (proctorRecords s pp)
      (⟨200, ""⟩, groups.map (fun p => (p.1, round2 (p.2.1 / (p.2.2 : ℚ)))))

/-! ### Auth handlers (`server/auth.ts`) -/

/-- The constant body of `POST /api/forgot-password`. -/
def forgotMsg : String :=
  "If an account exists with that email, you will receive a password reset link"

/-- `POST /api/forgot-password`: validate, look up the user by email; when no
user matches (or the role differs) answer 200 with `forgotMsg` and no store
change; otherwise create a token expiring in one hour (`tok` stands for the
`randomBytes` value, delivered by email — not a store effect), purge
expired/used tokens, and answer the very same 200 body. -/
def forgotPassword (emailOk : String → Bool) (s : Store) (now : Nat)
    (tok : String) (b : ForgotBody) : Resp × Store :=
  if !(forgotSchemaAccepts emailOk b) then (⟨400, "Invalid request data"⟩, s)
  else
    let email := b.email.getD ""
    let role := b.role.getD Role.student
    match getUserByEmail s email with
    | none => (⟨200, forgotMsg⟩, s)
    | some u =>
      if u.role ≠ role then (⟨200, forgotMsg⟩, s)
      else
        let ts := createPasswordResetToken s now u.id tok (now + 3600000)
        let s2 := deleteExpiredTokens ts.2 now
        (⟨200, forgotMsg⟩, s2)

/-- `POST /api/reset-password` (`hash` stands for scrypt `hashPassword`):
validate, fetch the token row through `getPasswordResetToken`, answer 400 on
a miss, otherwise rehash, store the new password and mark the token used. -/
def resetPassword (hash : String → String) (s : Store) (now : Nat)
    (b : ResetBody) : Resp × Store :=
  if !(passwordResetSchemaAccepts b) then (⟨400, "Invalid request data"⟩, s)
  else
    let tok := b.token.getD ""
    match getPasswordResetToken s now tok with
    | none => (⟨400, "Invalid or expired reset token"⟩, s)
    | some rt =>
      let hashed := hash (b.newPassword.getD "")
      match updateUserPassword s rt.userId hashed with
      | (none, s1) => (⟨404, "User not found"⟩, s1)
      | (some _, s1) =>
        let s2 := (markTokenAsUsed s1 now tok).2
        (⟨200, "Password has been reset successfully"⟩, s2)

/-- `POST /api/login` (`cmp` stands for scrypt `comparePasswords`): validate
`loginSchema`, authenticate by email and password (401 on failure), reject a
role mismatch with 403 and no session, otherwise establish the session
(`req.login`) and answer 200.  The second component is the session:
`some` of the logged-in user id, or `none`. -/
def login (emailOk : String → Bool) (cmp : String → String → Bool)
    (s : Store) (b : LoginBody) : Resp × Option Nat :=
  if !(loginSchemaAccepts emailOk b) then (⟨400, "Invalid login data"⟩, none)
  else
    let email := b.email.getD ""
    let pw := b.password.getD ""
    let role := b.role.getD Role.student
    match getUserByEmail s email with
    | none => (⟨401, "Invalid email or password"⟩, none)
    | some u =>
      if !(cmp pw u.password) then (⟨401, "Invalid email or password"⟩, none)
      else if u.role ≠ role then
        (⟨403, "Authentication failed. You are not a " ++ roleName role ++ "."⟩,
          none)
      else (⟨200, ""⟩, some u.id)

/-! ## Concrete fixtures used by witnesses and counterexamples -/

/-- A student user (id 1). -/
def stuUser : User :=
  { id := 1, email := "stu@example.com", username := "stu1",
    password := "stuhash.salt", role := Role.student, name := "Stu",
    createdAt := 0 }

/-- A proctor user (id 2). -/
def procUser : User :=
  { id := 2, email := "proc@example.com", username := "proc1",
    password := "prochash.salt", role := Role.proctor, name := "Proc",
    createdAt := 0 }

/-- Student profile of `stuUser`, assigned to proctor profile 20. -/
def stuProfile : StudentProfile :=
  { id := 10, userId := 1, studentId := "S1", department := "CS",
    proctorId := some 20, semester := 3, cgpa := 0 }

/-- Proctor profile of `procUser`. -/
def procProfile : ProctorProfile :=
  { id := 20, userId := 2, facultyId := "F1", department := "CS",
    phone := "", designation := "Prof" }

/-- Base store: the two users with their profiles, everything else empty. -/
def baseStore : Store :=
  { users := [stuUser, procUser], studentProfiles := [stuProfile],
    proctorProfiles := [procProfile], attendance := [], academicRecords := [],
    queries := [], queryResponses := [], passwordResetTokens := [] }

/-- A fresh, unexpired password-reset token for `stuUser`. -/
def freshToken : PasswordResetToken :=
  { id := 1, userId := 1, token := "tok123", expiresAt := 7200000,
    createdAt := 0, usedAt := none }

/-- Store holding `freshToken`. -/
def tokenStore : Store := { baseStore with passwordResetTokens := [freshToken] }

/-- A pending query from `stuUser` to `procUser` (user ids, as in the code). -/
def pendingQuery : Query :=
  { id := 50, studentId := 1, proctorId := 2, subject := "Grade issue",
    description := "My internal marks seem wrong",
    status := QueryStatus.pending, createdAt := 3, updatedAt := 3 }

/-- Store holding `pendingQuery`. -/
def pendingQueryStore : Store := { baseStore with queries := [pendingQuery] }

/-- A third user, party to no query. -/
def otherUser : User :=
  { id := 7, email := "other@example.com", username := "other7",
    password := "otherhash.salt", role := Role.student, name := "Other",
    createdAt := 0 }

/-- Three attendance rows of `stuProfile`: course A has one present row,
course B one present and one absent row (as in the spec scenario, the
overall percentage is 66.67 while the average of the course percentages
would be 75). -/
def attRowsAB : List AttendanceRow :=
  [{ id := 1, studentId := 10, courseId := "A", courseName := "A", date := 1,
     isPresent := true },
   { id := 2, studentId := 10, courseId := "B", courseName := "B", date := 1,
     isPresent := true },
   { id := 3, studentId := 10, courseId := "B", courseName := "B", date := 2,
     isPresent := false }]

/-- Two academic records of `stuProfile` in course Math, one with a null
quiz mark (their scores are 10 and 30). -/
def mathRecord1 : AcademicRecord :=
  { id := 1, studentId := 10, courseId := "M", courseName := "Math",
    semester := 1, internalMarks := some 4, quizMarks := some 3,
    projectMarks := some 2, semesterMarks := some 1, cgpa := 0 }

/-- Second Math record; `quizMarks` is null and counts as 0. -/
def mathRecord2 : AcademicRecord :=
  { id := 2, studentId := 10, courseId := "M", courseName := "Math",
    semester := 1, internalMarks := some 10, quizMarks := none,
    projectMarks := some 10, semesterMarks := some 10, cgpa := 0 }

/-- Store with the two Math records under `stuProfile`. -/
def acadStore : Store :=
  { baseStore with academicRecords := [mathRecord1, mathRecord2] }

/-! ## Spec-side aggregation formulas (for comparison with the code) -/

/-- The spec's course-percentage formula: over the rows of one course,
present count over total count times 100, rounded to 2 decimal places; a
course with no rows yields 0 instead of dividing by zero. -/
def specCoursePct (rows : List AttendanceRow) (c : String) : ℚ :=
  let cl := rows.filter (fun r => r.courseName == c)
  let total := cl.length
  let present := (cl.filter (fun r => r.isPresent)).length
  if total = 0 then 0 else round2 ((present : ℚ) / (total : ℚ) * 100)

/-- The spec's overall-percentage formula: the same computation over the
full unfiltered row set (weighted by class count). -/
def specOverallPct (rows : List AttendanceRow) : ℚ :=
  let total := rows.length
  let present := (rows.filter (fun r => r.isPresent)).length
  if total = 0 then 0 else round2 ((present : ℚ) / (total : ℚ) * 100)

/-- The alternative computation the spec denies: the unweighted average of
the per-course percentages. -/
def avgCoursePcts (rows : List AttendanceRow) : ℚ :=
  let ps := (studentAttendanceCourseWise rows).map (fun p => p.2.2.2)
  if ps.length = 0 then 0 else ps.sum / (ps.length : ℚ)

/-! ## Association-list machinery for the grouping folds -/

/-- The value bound to key `c` in the accumulator object. -/
def glookup {α : Type} (c : String) (acc : List (String × α)) : Option α :=
  (acc.find? (fun p => p.1 == c)).map (fun p => p.2)

/-- Replaying the accumulator updates along the rows of one key. -/
def gapply {β α : Type} (upd : β → α → α) (ini : β → α) :
    List β → Option α → Option α
  | [], o => o
  | b :: t, none => gapply upd ini t (some (ini b))
  | b :: t, some a => gapply upd ini t (some (upd b a))

/-- Association lists without a repeated key (JS object keys are unique). -/
def NodupKeys {α : Type} (acc : List (String × α)) : Prop :=
  (acc.map Prod.fst).Nodup

/-! ## Helper lemmas about list lookups and updates -/

/-- `find?` commutes with a `map` that does not disturb the predicate. -/
theorem find?_map_keyfix {α : Type} (p : α → Bool) (f : α → α)
    (hf : ∀ x, p (f x) = p x) (l : List α) :
    (l.map f).find? p = (l.find? p).map f := by
  induction l with
  | nil => rfl
  | cons a t ih =>
    by_cases hpa : p a = true
    · rw [List.map_cons, List.find?_cons_of_pos _ (by rw [hf]; exact hpa),
        List.find?_cons_of_pos _ hpa, Option.map_some']
    · have hpa' : ¬ p a := by simpa using hpa
      rw [List.map_cons, List.find?_cons_of_neg _ (by rw [hf]; exact hpa'),
        List.find?_cons_of_neg _ hpa', ih]

/-- Effect of `updateQueryStatus` on a subsequent lookup of the same id. -/
theorem getQueryById_updateQueryStatus (s : Store) (now i : Nat)
    (st : QueryStatus) :
    getQueryById (updateQueryStatus s now i st).2 i =
      (getQueryById s i).map
        (fun q => { q with status := st, updatedAt := now }) := by
  unfold getQueryById updateQueryStatus
  rw [find?_map_keyfix (fun q => q.id == i)
    (fun q => if q.id == i then { q with status := st, updatedAt := now } else q)
    (fun q => by by_cases h : q.id == i <;> simp [h]) s.queries]
  cases hfq : s.queries.find? (fun q => q.id == i) with
  | none => rfl
  | some q =>
    have hid : q.id = i := by
      have := List.find?_some hfq
      simpa using this
    simp [hid]

/-- `any` over keys agrees with `find?` success. -/
theorem any_key_eq_isSome {α : Type} (c : String)
    (acc : List (String × α)) :
    acc.any (fun p => p.1 == c) = (acc.find? (fun p => p.1 == c)).isSome := by
  induction acc with
  | nil => rfl
  | cons p t ih =>
    cases hp : (p.1 == c) with
    | true => simp [List.any_cons, List.find?, hp]
    | false => simp [List.any_cons, List.find?, hp, ih]

/-- One `gstep` seen through `glookup`: the key of the new row is updated
(or initialised), every other key is untouched. -/
theorem glookup_gstep {β α : Type} (key : β → String) (upd : β → α → α)
    (ini : β → α) (c : String) (acc : List (String × α)) (b : β) :
    glookup c (gstep key upd ini acc b) =
      if key b == c then
        (match glookup c acc with
         | none => some (ini b)
         | some a => some (upd b a))
      else glookup c acc := by
  unfold gstep
  by_cases hany : acc.any (fun p => p.1 == key b) = true
  · rw [if_pos hany]
    unfold glookup
    rw [find?_map_keyfix (fun p => p.1 == c)
      (fun p => if p.1 == key b then (p.1, upd b p.2) else p)
      (fun p => by by_cases h : (p.1 == key b) = true <;> simp [h]) acc]
    by_cases hk : (key b == c) = true
    · have hkeq : key b = c := by simpa using hk
      rw [if_pos hk]
      cases hf : acc.find? (fun p => p.1 == c) with
      | none =>
        exfalso
        rcases List.any_eq_true.mp hany with ⟨p, hp, hpb⟩
        have hnone := List.find?_eq_none.mp hf p hp
        apply hnone
        rw [hkeq] at hpb
        exact hpb
      | some p =>
        have hp1 : p.1 = c := by simpa using List.find?_some hf
        simp [hp1, hkeq]
    · rw [if_neg hk]
      cases hf : acc.find? (fun p => p.1 == c) with
      | none => simp
      | some p =>
        have hp1 : p.1 = c := by simpa using List.find?_some hf
        have hne : p.1 ≠ key b := by
          rw [hp1]
          intro h2
          exact hk (by rw [h2]; simp)
        simp [hne]
  · rw [if_neg hany]
    have hanyf : acc.any (fun p => p.1 == key b) = false := by
      cases h2 : acc.any (fun p => p.1 == key b) with
      | false => rfl
      | true => exact absurd h2 hany
    unfold glookup
    rw [List.find?_append]
    by_cases hk : (key b == c) = true
    · have hkeq : key b = c := by simpa using hk
      have hnone : acc.find? (fun p => p.1 == c) = none := by
        rw [hkeq] at hanyf
        rw [any_key_eq_isSome] at hanyf
        rcases ho : acc.find? (fun p => p.1 == c) with _ | p
        · exact ho
        · rw [ho] at hanyf
          simp at hanyf
      rw [hnone, if_pos hk]
      simp [List.find?, hk]
    · rw [if_neg hk]
      have hk0 : (key b == c) = false := by
        cases h2 : (key b == c) with
        | false => rfl
        | true => exact absurd h2 hk
      simp [List.find?, hk0]

/-- Folding rows through `gstep`, one key at a time: the value finally bound
to `c` is the replay of the updates over exactly the rows keyed `c`. -/
theorem glookup_gfold_aux {β α : Type} (key : β → String) (upd : β → α → α)
    (ini : β → α) (c : String) :
    ∀ (l : List β) (acc : List (String × α)),
      glookup c (l.foldl (gstep key upd ini) acc) =
        gapply upd ini (l.filter (fun b => key b == c)) (glookup c acc) := by
  intro l
  induction l with
  | nil => intro acc; rfl
  | cons b t ih =>
    intro acc
    rw [List.foldl_cons, ih, glookup_gstep, List.filter_cons]
    by_cases hk : (key b == c) = true
    · rw [if_pos hk, if_pos hk]
      cases glookup c acc <;> rfl
    · rw [if_neg hk, if_neg hk]

/-- `gstep` keeps the keys unique. -/
theorem gstep_nodupKeys {β α : Type} (key : β → String) (upd : β → α → α)
    (ini : β → α) (acc : List (String × α)) (b : β)
    (h : NodupKeys acc) : NodupKeys (gstep key upd ini acc b) := by
  unfold gstep
  by_cases hany : acc.any (fun p => p.1 == key b) = true
  · rw [if_pos hany]
    unfold NodupKeys at h ⊢
    have hkeys : (acc.map
        (fun p => if p.1 == key b then (p.1, upd b p.2) else p)).map Prod.fst =
        acc.map Prod.fst := by
      rw [List.map_map]
      apply List.map_congr_left
      intro p _
      by_cases h1 : p.1 = key b <;> simp [h1]
    rw [hkeys]
    exact h
  · rw [if_neg hany]
    unfold NodupKeys at h ⊢
    rw [List.map_append]
    apply List.Nodup.append h (List.nodup_singleton _)
    intro a ha hb
    have hab : a = key b := by simpa using hb
    rcases List.mem_map.mp ha with ⟨p, hp, hpa⟩
    apply hany
    exact List.any_eq_true.mpr ⟨p, hp, by rw [hpa, hab]; simp⟩

/-- The accumulator object built by `gfold` has unique keys. -/
theorem gfold_nodupKeys {β α : Type} (key : β → String) (upd : β → α → α)
    (ini : β → α) (l : List β) : NodupKeys (gfold key upd ini l) := by
  have main : ∀ acc, NodupKeys acc →
      NodupKeys (l.foldl (gstep key upd ini) acc) := by
    induction l with
    | nil => intro acc h; exact h
    | cons b t ih =>
      intro acc h
      exact ih _ (gstep_nodupKeys key upd ini acc b h)
  exact main [] (by simp [NodupKeys])

/-- With unique keys, membership determines the lookup. -/
theorem glookup_of_mem {α : Type} (c : String) (v : α)
    (acc : List (String × α)) (hnd : NodupKeys acc) (hm : (c, v) ∈ acc) :
    glookup c acc = some v := by
  induction acc with
  | nil => cases hm
  | cons p t ih =>
    unfold NodupKeys at hnd
    rw [List.map_cons, List.nodup_cons] at hnd
    rcases List.mem_cons.mp hm with he | ht
    · unfold glookup
      rw [← he]
      simp [List.find?]
    · have hp1 : (p.1 == c) = false := by
        cases hpc : (p.1 == c) with
        | false => rfl
        | true =>
          exfalso
          have hc : p.1 = c := by simpa using hpc
          apply hnd.1
          rw [hc]
          exact List.mem_map.mpr ⟨(c, v), ht, rfl⟩
      unfold glookup
      simp only [List.find?, hp1]
      exact ih hnd.2 ht

/-- Main characterisation: an entry `(c, v)` of the grouped object comes
from a nonempty set of rows keyed `c`, and `v` is the replay over them. -/
theorem gfold_mem_gapply {β α : Type} (key : β → String) (upd : β → α → α)
    (ini : β → α) (l : List β) (c : String) (v : α)
    (hm : (c, v) ∈ gfold key upd ini l) :
    l.filter (fun b => key b == c) ≠ [] ∧
      gapply upd ini (l.filter (fun b => key b == c)) none = some v := by
  have h1 : glookup c (gfold key upd ini l) = some v :=
    glookup_of_mem c v _ (gfold_nodupKeys key upd ini l) hm
  have h2 : glookup c (gfold key upd ini l) =
      gapply upd ini (l.filter (fun b => key b == c))
        (glookup c ([] : List (String × α))) :=
    glookup_gfold_aux key upd ini c l []
  rw [h1] at h2
  have h3 : gapply upd ini (l.filter (fun b => key b == c)) none = some v :=
    h2.symm
  refine ⟨?_, h3⟩
  intro hfl
  rw [hfl] at h3
  simp [gapply] at h3

/-- Updating the (unique) entry of one key adds that row's measure to the
total of a `Nat` measure over the accumulator. -/
theorem map_upd_summeasure {β α : Type} (key : β → String)
    (upd : β → α → α) (m : α → Nat) (mb : β → Nat)
    (hupd : ∀ b a, m (upd b a) = m a + mb b) (b : β) :
    ∀ acc : List (String × α), NodupKeys acc →
      acc.any (fun p => p.1 == key b) = true →
      ((acc.map
        (fun p => if p.1 == key b then (p.1, upd b p.2) else p)).map
          (fun p => m p.2)).sum =
        (acc.map (fun p => m p.2)).sum + mb b := by
  intro acc
  induction acc with
  | nil =>
    intro _ h
    simp at h
  | cons p t ih =>
    intro hnd hany
    unfold NodupKeys at hnd
    rw [List.map_cons, List.nodup_cons] at hnd
    by_cases hp : (p.1 == key b) = true
    · have hpk : p.1 = key b := by simpa using hp
      have htail : t.map
          (fun q => if q.1 == key b then (q.1, upd b q.2) else q) = t := by
        have hid : ∀ q ∈ t,
            (if q.1 == key b then (q.1, upd b q.2) else q) = q := by
          intro q hq
          have hqn : q.1 ≠ key b := by
            intro he
            apply hnd.1
            rw [hpk, ← he]
            exact List.mem_map.mpr ⟨q, hq, rfl⟩
          simp [hqn]
        calc t.map (fun q => if q.1 == key b then (q.1, upd b q.2) else q)
            = t.map id := List.map_congr_left (by simpa using hid)
          _ = t := List.map_id t
      rw [List.map_cons, htail, List.map_cons, List.map_cons,
        List.sum_cons, List.sum_cons]
      rw [show (if p.1 == key b then (p.1, upd b p.2) else p) =
        (p.1, upd b p.2) from by simp [hpk]]
      rw [hupd]
      omega
    · have hp0 : (p.1 == key b) = false := by
        cases h2 : (p.1 == key b) with
        | false => rfl
        | true => exact absurd h2 hp
      have hany2 : t.any (fun q => q.1 == key b) = true := by
        rw [List.any_cons, hp0] at hany
        simpa using hany
      rw [List.map_cons, List.map_cons, List.map_cons, List.sum_cons,
        List.sum_cons]
      rw [show (if p.1 == key b then (p.1, upd b p.2) else p) = p from
        by simp [hp0]]
      rw [ih hnd.2 hany2]
      omega

/-- One `gstep` adds the new row's measure to the accumulator total. -/
theorem gstep_summeasure {β α : Type} (key : β → String)
    (upd : β → α → α) (ini : β → α) (m : α → Nat) (mb : β → Nat)
    (hupd : ∀ b a, m (upd b a) = m a + mb b)
    (hini : ∀ b, m (ini b) = mb b)
    (acc : List (String × α)) (b : β) (hnd : NodupKeys acc) :
    ((gstep key upd ini acc b).map (fun p => m p.2)).sum =
      (acc.map (fun p => m p.2)).sum + mb b := by
  unfold gstep
  by_cases hany : acc.any (fun p => p.1 == key b) = true
  · rw [if_pos hany]
    exact map_upd_summeasure key upd m mb hupd b acc hnd hany
  · rw [if_neg hany, List.map_append, List.sum_append]
    simp [hini]

/-- Measures distribute over the whole grouping fold: summing a measure over
the grouped object equals summing the per-row measure over the rows. -/
theorem gfold_summeasure {β α : Type} (key : β → String)
    (upd : β → α → α) (ini : β → α) (m : α → Nat) (mb : β → Nat)
    (hupd : ∀ b a, m (upd b a) = m a + mb b)
    (hini : ∀ b, m (ini b) = mb b) (l : List β) :
    ((gfold key upd ini l).map (fun p => m p.2)).sum = (l.map mb).sum := by
  have main : ∀ acc, NodupKeys acc →
      ((l.foldl (gstep key upd ini) acc).map (fun p => m p.2)).sum =
        (acc.map (fun p => m p.2)).sum + (l.map mb).sum := by
    induction l with
    | nil =>
      intro acc _
      simp
    | cons b t ih =>
      intro acc hnd
      rw [List.foldl_cons, ih _ (gstep_nodupKeys key upd ini acc b hnd),
        gstep_summeasure key upd ini m mb hupd hini acc b hnd,
        List.map_cons, List.sum_cons]
      omega
  have h0 := main [] (by simp [NodupKeys])
  simpa [gfold] using h0

/-- Replaying the attendance updates over a row list, starting from a
counted pair. -/
theorem gapply_att_some (l : List AttendanceRow) :
    ∀ t0 p0 : Nat,
      gapply attUpd attIni l (some (t0, p0)) =
        some (t0 + l.length,
          p0 + (l.filter (fun r => r.isPresent)).length) := by
  induction l with
  | nil =>
    intro t0 p0
    simp [gapply]
  | cons r t ih =>
    intro t0 p0
    have h1 : gapply attUpd attIni (r :: t) (some (t0, p0)) =
        gapply attUpd attIni t
          (some (t0 + 1, if r.isPresent then p0 + 1 else p0)) := by
      simp [gapply, attUpd]
    rw [h1]
    by_cases hp : r.isPresent = true
    · rw [if_pos hp, ih, List.filter_cons, if_pos (by simpa using hp)]
      simp only [List.length_cons, Option.some.injEq, Prod.mk.injEq]
      omega
    · rw [if_neg hp, ih, List.filter_cons,
        if_neg (by simpa using hp)]
      simp only [List.length_cons, Option.some.injEq, Prod.mk.injEq]
      exact ⟨by omega, trivial⟩

/-- The grouped attendance entry of a nonempty row list counts its rows and
its present rows. -/
theorem gapply_att_none (l : List AttendanceRow) (h : l ≠ []) :
    gapply attUpd attIni l none =
      some (l.length, (l.filter (fun r => r.isPresent)).length) := by
  cases l with
  | nil => exact absurd rfl h
  | cons r t =>
    have h1 : gapply attUpd attIni (r :: t) none =
        gapply attUpd attIni t
          (some (1, if r.isPresent then 1 else 0)) := by
      simp [gapply, attIni]
    rw [h1]
    by_cases hp : r.isPresent = true
    · rw [if_pos hp, gapply_att_some, List.filter_cons,
        if_pos (by simpa using hp)]
      simp only [List.length_cons, Option.some.injEq, Prod.mk.injEq]
      omega
    · rw [if_neg hp, gapply_att_some, List.filter_cons,
        if_neg (by simpa using hp)]
      simp only [List.length_cons, Option.some.injEq, Prod.mk.injEq]
      omega

/-- Replaying the academic updates over a record list, starting from an
accumulated pair. -/
theorem gapply_acad_some (l : List AcademicRecord) :
    ∀ (x0 : ℚ) (n0 : Nat),
      gapply acadUpd acadIni l (some (x0, n0)) =
        some (x0 + (l.map recordScore).sum, n0 + l.length) := by
  induction l with
  | nil =>
    intro x0 n0
    simp [gapply]
  | cons r t ih =>
    intro x0 n0
    have h1 : gapply acadUpd acadIni (r :: t) (some (x0, n0)) =
        gapply acadUpd acadIni t (some (x0 + recordScore r, n0 + 1)) := by
      simp [gapply, acadUpd]
    rw [h1, ih, List.map_cons, List.sum_cons]
    simp only [List.length_cons, Option.some.injEq, Prod.mk.injEq]
    constructor
    · ring_nf
    · omega

/-- The grouped academic entry of a nonempty record list holds the summed
scores and the record count. -/
theorem gapply_acad_none (l : List AcademicRecord) (h : l ≠ []) :
    gapply acadUpd acadIni l none =
      some ((l.map recordScore).sum, l.length) := by
  cases l with
  | nil => exact absurd rfl h
  | cons r t =>
    have h1 : gapply acadUpd acadIni (r :: t) none =
        gapply acadUpd acadIni t (some (recordScore r, 1)) := by
      simp [gapply, acadIni]
    rw [h1, gapply_acad_some, List.map_cons, List.sum_cons]
    simp only [List.length_cons, Option.some.injEq, Prod.mk.injEq]
    constructor
    · ring_nf
    · omega

/-- Summing the constant 1 over a row list counts it. -/
theorem sum_map_one (l : List AttendanceRow) :
    (l.map (fun _ => (1 : Nat))).sum = l.length := by
  induction l with
  | nil => rfl
  | cons r t ih =>
    simp [ih]
    omega

/-- Summing the presence indicator counts the present rows. -/
theorem sum_map_presentInd (l : List AttendanceRow) :
    (l.map (fun r => if r.isPresent then (1 : Nat) else 0)).sum =
      (l.filter (fun r => r.isPresent)).length := by
  induction l with
  | nil => rfl
  | cons r t ih =>
    rw [List.map_cons, List.sum_cons, List.filter_cons, ih]
    by_cases hp : r.isPresent = true
    · rw [if_pos hp, if_pos (by simpa using hp)]
      simp
      omega
    · rw [if_neg hp, if_neg (by simpa using hp)]
      simp

/-- `overallTotal`, summed over the per-course groups, is the full row
count. -/
theorem courseAttendance_total (rows : List AttendanceRow) :
    ((courseAttendance rows).map (fun p => p.2.1)).sum = rows.length := by
  have h := gfold_summeasure (fun r => r.courseName) attUpd attIni
    (fun a => a.1) (fun _ => 1)
    (fun b a => by simp [attUpd]) (fun b => by simp [attIni]) rows
  calc ((courseAttendance rows).map (fun p => p.2.1)).sum
      = (rows.map (fun _ => (1 : Nat))).sum := h
    _ = rows.length := sum_map_one rows

/-- `overallPresent`, summed over the per-course groups, is the full
present-row count. -/
theorem courseAttendance_present (rows : List AttendanceRow) :
    ((courseAttendance rows).map (fun p => p.2.2)).sum =
      (rows.filter (fun r => r.isPresent)).length := by
  have h := gfold_summeasure (fun r => r.courseName) attUpd attIni
    (fun a => a.2) (fun r => if r.isPresent then 1 else 0)
    (fun b a => by by_cases hp : b.isPresent = true <;> simp [attUpd, hp])
    (fun b => by by_cases hp : b.isPresent = true <;> simp [attIni, hp])
    rows
  calc ((courseAttendance rows).map (fun p => p.2.2)).sum
      = (rows.map (fun r => if r.isPresent then (1 : Nat) else 0)).sum := h
    _ = (rows.filter (fun r => r.isPresent)).length := sum_map_presentInd rows

/-! ## Claims -/

/-- C1: the spec says redemption of a reset token succeeds exactly when the
token exists, has not been used (`usedAt` null) and has not expired.  The
code's `getPasswordResetToken` filters with `isNotNull(usedAt)` — the
opposite polarity — so a fresh, unexpired, never-used token is rejected with
400 "Invalid or expired reset token" and the store (hence the password) is
untouched.  This theorem evaluates the handler at such a failing input:
all three of the claim's success conditions hold, yet redemption fails. -/
theorem c1_reset_password_rejects_fresh_token :
    (∃ t ∈ tokenStore.passwordResetTokens,
      t.token = "tok123" ∧ t.usedAt = none ∧ 100 < t.expiresAt) ∧
    resetPassword (fun p => p ++ "#hashed") tokenStore 100
        ⟨some "tok123", some "newpass1"⟩ =
      (⟨400, "Invalid or expired reset token"⟩, tokenStore) := by
  constructor
  · exact ⟨freshToken, by decide⟩
  · decide

/-- C2 counterexample: the claim says a subject shorter than 3 characters or
a description shorter than 10 makes `POST /api/student/queries` fail with
400 via `insertQuerySchema`.  In fact `insertQuerySchema` is
`createInsertSchema(queries).omit(...)`, whose `subject`/`description` are
plain `z.string()` with no length bound: the request below, with a
1-character subject and a 5-character description, is accepted (201) and the
query is stored. -/
theorem c2_short_subject_accepted :
    "a".length < 3 ∧ "short".length < 10 ∧
    (createStudentQuery baseStore stuUser 5 ⟨some "a", some "short", none⟩).1 =
      ⟨201, ""⟩ ∧
    (createStudentQuery baseStore stuUser 5
        ⟨some "a", some "short", none⟩).2.queries.length = 1 := by
  decide

/-- C2 (amended): the API schema layer (`insertQuerySchema`) only requires
`subject` and `description` to be present strings; it imposes no minimum
length.  For a student with an assigned proctor the request fails 400
("Invalid query data") exactly when one of the two fields is missing, and is
accepted (201) for present strings of any length — the 3/10-character
minimums live only in the client-side form schema. -/
theorem c2_schema_checks_presence_only (s : Store) (u : User) (now : Nat)
    (b : QueryBody) (sp : StudentProfile) (pid : Nat) (pp : ProctorProfile)
    (hrole : u.role = Role.student)
    (hsp : getStudentProfile s u.id = some sp)
    (hpid : sp.proctorId = some pid)
    (hpp : getProctorProfileById s pid = some pp) :
    ((b.subject = none ∨ b.description = none) →
      createStudentQuery s u now b = (⟨400, "Invalid query data"⟩, s)) ∧
    (∀ subj desc, b.subject = some subj → b.description = some desc →
      (createStudentQuery s u now b).1 = ⟨201, ""⟩) := by
  constructor
  · intro hmiss
    have hacc : insertQuerySchemaAccepts b.subject b.description = false := by
      rcases hmiss with h | h <;> simp [insertQuerySchemaAccepts, h]
    unfold createStudentQuery
    simp [hrole, hsp, hpid, hpp, hacc]
  · intro subj desc hs hd
    have hacc : insertQuerySchemaAccepts b.subject b.description = true := by
      simp [insertQuerySchemaAccepts, hs, hd]
    unfold createStudentQuery
    simp [hrole, hsp, hpid, hpp, hacc]

/-- C2 witness: the amended claim applied at a concrete input — a present
2-character subject and 5-character description are accepted with 201. -/
theorem c2_schema_checks_presence_only_witness :
    getStudentProfile baseStore stuUser.id = some stuProfile ∧
    (createStudentQuery baseStore stuUser 5
        ⟨some "ab", some "hello", none⟩).1 = ⟨201, ""⟩ :=
  ⟨by decide,
    (c2_schema_checks_presence_only baseStore stuUser 5
        ⟨some "ab", some "hello", none⟩ stuProfile 20 procProfile
        (by decide) (by decide) (by decide) (by decide)).2
      "ab" "hello" rfl rfl⟩

/-- C5: every successful `POST /api/student/queries` stores a query whose
status is exactly `pending`, whatever status value the request body carried:
the handler builds `queryData` without a status and the insert applies the
column default. -/
theorem c5_created_query_is_pending (s : Store) (u : User) (now : Nat)
    (b : QueryBody) (h : (createStudentQuery s u now b).1.status = 201) :
    ∃ q : Query, (createStudentQuery s u now b).2.queries = s.queries ++ [q] ∧
      q.status = QueryStatus.pending := by
  by_cases hr : u.role = Role.student
  · cases hsp : getStudentProfile s u.id with
    | none => unfold createStudentQuery at h; simp [hr, hsp] at h
    | some sp =>
      cases hpid : sp.proctorId with
      | none => unfold createStudentQuery at h; simp [hr, hsp, hpid] at h
      | some pid =>
        cases hpp : getProctorProfileById s pid with
        | none => unfold createStudentQuery at h; simp [hr, hsp, hpid, hpp] at h
        | some pp =>
          by_cases hacc :
              insertQuerySchemaAccepts b.subject b.description = true
          · have hq : (createStudentQuery s u now b).2.queries =
                s.queries ++ [⟨freshId (s.queries.map (fun q => q.id)), u.id,
                  pp.userId, b.subject.getD "", b.description.getD "",
                  QueryStatus.pending, now, now⟩] := by
              unfold createStudentQuery createQuery
              simp [hr, hsp, hpid, hpp, hacc]
            exact ⟨_, hq, rfl⟩
          · unfold createStudentQuery at h
            simp [hr, hsp, hpid, hpp, hacc] at h
  · unfold createStudentQuery at h; simp [hr] at h

/-- C5 witness: a creation request that smuggles `status := closed` in its
body still stores a `pending` query. -/
theorem c5_created_query_is_pending_witness :
    (createStudentQuery baseStore stuUser 5
        ⟨some "Grade issue", some "My internal marks seem wrong",
          some QueryStatus.closed⟩).1.status = 201 ∧
    ∃ q : Query,
      (createStudentQuery baseStore stuUser 5
          ⟨some "Grade issue", some "My internal marks seem wrong",
            some QueryStatus.closed⟩).2.queries = baseStore.queries ++ [q] ∧
      q.status = QueryStatus.pending :=
  ⟨by decide,
    c5_created_query_is_pending baseStore stuUser 5
      ⟨some "Grade issue", some "My internal marks seem wrong",
        some QueryStatus.closed⟩ (by decide)⟩

/-- C3: responding to a `pending` query through the proctor-specific endpoint
`POST /api/proctor/queries/:id/respond` transitions it to `in_progress`,
while the generic endpoint `POST /api/queries/:id/respond` appends the
response but never writes the `queries` table, so the status is unchanged. -/
theorem c3_respond_asymmetry (s : Store) (u : User) (now qid : Nat)
    (b : RespondBody) (q : Query)
    (hq : getQueryById s qid = some q)
    (hrole : u.role = Role.proctor)
    (hown : q.proctorId = u.id)
    (hpend : q.status = QueryStatus.pending)
    (hb : b.response.isSome = true) :
    getQueryById (proctorRespond s u now qid b).2 qid =
      some { q with status := QueryStatus.in_progress, updatedAt := now } ∧
    (genericRespond s u now qid b).2.queries = s.queries ∧
    (genericRespond s u now qid b).2.queryResponses =
      s.queryResponses ++ [(createQueryResponse s now qid u.id
        (b.response.getD "")).1] := by
  have hschema : insertQueryResponseSchemaAccepts b = true := hb
  refine ⟨?_, ?_, ?_⟩
  · unfold proctorRespond
    simp only [hrole, hschema, hq, hown, hpend, ne_eq, not_true_eq_false,
      Bool.not_true, Bool.false_eq_true, if_false, ite_false, ite_true]
    have hsame : getQueryById
        (createQueryResponse s now qid u.id (b.response.getD "")).2 qid =
        getQueryById s qid := rfl
    rw [getQueryById_updateQueryStatus, hsame, hq]
    simp [hown]
  · unfold genericRespond
    simp [hschema, hq, hown, createQueryResponse]
  · unfold genericRespond
    simp [hschema, hq, hown, createQueryResponse]

/-- C3 witness: a concrete pending query responded to by its proctor through
both endpoints. -/
theorem c3_respond_asymmetry_witness :
    getQueryById pendingQueryStore 50 = some pendingQuery ∧
    getQueryById (proctorRespond pendingQueryStore procUser 9 50
        ⟨some "On it"⟩).2 50 =
      some { pendingQuery with
        status := QueryStatus.in_progress
        updatedAt := 9 } ∧
    (genericRespond pendingQueryStore procUser 9 50
        ⟨some "On it"⟩).2.queries = pendingQueryStore.queries :=
  ⟨by decide,
    (c3_respond_asymmetry pendingQueryStore procUser 9 50 ⟨some "On it"⟩
      pendingQuery (by decide) (by decide) (by decide) (by decide)
      (by decide)).1,
    (c3_respond_asymmetry pendingQueryStore procUser 9 50 ⟨some "On it"⟩
      pendingQuery (by decide) (by decide) (by decide) (by decide)
      (by decide)).2.1⟩

/-- C6: on every query-scoped operation over an existing query — view,
respond via either endpoint, status update — a caller who is neither the
query's `studentId` nor its `proctorId` gets HTTP 403 and the store is
unchanged; and for the status update any caller other than exactly the
query's proctor (the student included) gets 403 with no store change. -/
theorem c6_neither_party_forbidden (s : Store) (u : User) (now qid : Nat)
    (b : RespondBody) (bs : StatusBody) (q : Query)
    (hq : getQueryById s qid = some q)
    (hns : u.id ≠ q.studentId) (hnp : u.id ≠ q.proctorId)
    (hb : b.response.isSome = true) (hbs : bs.status.isSome = true) :
    viewQuery s u qid =
      ⟨403, "You do not have permission to view this query"⟩ ∧
    genericRespond s u now qid b =
      (⟨403, "You do not have permission to respond to this query"⟩, s) ∧
    ((proctorRespond s u now qid b).1.status = 403 ∧
      (proctorRespond s u now qid b).2 = s) ∧
    (∀ u2 : User, u2.id ≠ q.proctorId →
      (patchQueryStatus s u2 now qid bs).1.status = 403 ∧
      (patchQueryStatus s u2 now qid bs).2 = s) := by
  have h1 : q.studentId ≠ u.id := Ne.symm hns
  have h2 : q.proctorId ≠ u.id := Ne.symm hnp
  refine ⟨?_, ?_, ?_, ?_⟩
  · unfold viewQuery
    simp [hq, h1, h2]
  · unfold genericRespond
    simp [hq, h1, h2, hb, insertQueryResponseSchemaAccepts]
  · by_cases hrole : u.role = Role.proctor
    · have hv : proctorRespond s u now qid b =
          (⟨403, "You cannot respond to this query"⟩, s) := by
        unfold proctorRespond
        simp [hrole, hb, insertQueryResponseSchemaAccepts, hq, h2]
      rw [hv]
      exact ⟨rfl, rfl⟩
    · have hv : proctorRespond s u now qid b =
          (⟨403, "Access forbidden"⟩, s) := by
        unfold proctorRespond
        simp [hrole]
      rw [hv]
      exact ⟨rfl, rfl⟩
  · intro u2 hu2
    have h3 : q.proctorId ≠ u2.id := Ne.symm hu2
    rcases Option.isSome_iff_exists.mp hbs with ⟨st, hst⟩
    by_cases hrole : u2.role = Role.proctor
    · have hv : patchQueryStatus s u2 now qid bs =
          (⟨403, "You cannot update this query"⟩, s) := by
        unfold patchQueryStatus
        simp [hrole, hst, hq, h3]
      rw [hv]
      exact ⟨rfl, rfl⟩
    · have hv : patchQueryStatus s u2 now qid bs =
          (⟨403, "Access forbidden"⟩, s) := by
        unfold patchQueryStatus
        simp [hrole]
      rw [hv]
      exact ⟨rfl, rfl⟩

/-- C6 witness: a third user (id 7), party to no query, is rejected with 403
by the generic respond endpoint and the store is unchanged. -/
theorem c6_neither_party_forbidden_witness :
    otherUser.id ≠ pendingQuery.studentId ∧
    genericRespond pendingQueryStore otherUser 9 50 ⟨some "hi"⟩ =
      (⟨403, "You do not have permission to respond to this query"⟩,
        pendingQueryStore) :=
  ⟨by decide,
    (c6_neither_party_forbidden pendingQueryStore otherUser 9 50 ⟨some "hi"⟩
      ⟨some QueryStatus.resolved⟩ pendingQuery (by decide) (by decide)
      (by decide) (by decide) (by decide)).2.1⟩

/-- C8 counterexample: the claim says a nonexistent query id yields 404 on
every query-scoped request regardless of caller identity.  On
`PATCH /api/proctor/queries/:id/status` the `isRole('proctor')` middleware
runs before the existence check, so a student-role caller asking about a
nonexistent id gets 403 "Access forbidden", not 404. -/
theorem c8_patch_role_check_precedes_404 :
    getQueryById baseStore 5 = none ∧
    patchQueryStatus baseStore stuUser 0 5 ⟨some QueryStatus.resolved⟩ =
      (⟨403, "Access forbidden"⟩, baseStore) ∧
    (patchQueryStatus baseStore stuUser 0 5
      ⟨some QueryStatus.resolved⟩).1.status ≠ 404 := by
  refine ⟨by decide, by decide, by decide⟩

/-- C8 (amended): for the shared endpoints (view, generic respond with a
well-formed body) a nonexistent query id yields 404 "Query not found" for
every authenticated caller, before any authorization check; for the
proctor-scoped endpoints (proctor respond, status update) the same holds for
every proctor-role caller — a non-proctor caller is stopped with 403 by the
role middleware before the existence check. -/
theorem c8_not_found_before_authorization (s : Store) (u : User)
    (now qid : Nat) (b : RespondBody) (bs : StatusBody)
    (hq : getQueryById s qid = none)
    (hb : b.response.isSome = true) (hbs : bs.status.isSome = true) :
    viewQuery s u qid = ⟨404, "Query not found"⟩ ∧
    genericRespond s u now qid b = (⟨404, "Query not found"⟩, s) ∧
    (u.role = Role.proctor →
      proctorRespond s u now qid b = (⟨404, "Query not found"⟩, s) ∧
      patchQueryStatus s u now qid bs = (⟨404, "Query not found"⟩, s)) := by
  rcases Option.isSome_iff_exists.mp hbs with ⟨st, hst⟩
  refine ⟨?_, ?_, fun hrole => ⟨?_, ?_⟩⟩
  · unfold viewQuery
    simp [hq]
  · unfold genericRespond
    simp [hq, hb, insertQueryResponseSchemaAccepts]
  · unfold proctorRespond
    simp [hq, hb, insertQueryResponseSchemaAccepts, hrole]
  · unfold patchQueryStatus
    simp [hq, hst, hrole]

/-- C8 witness: a proctor-role caller naming the nonexistent query id 5. -/
theorem c8_not_found_before_authorization_witness :
    getQueryById baseStore 5 = none ∧
    viewQuery baseStore procUser 5 = ⟨404, "Query not found"⟩ ∧
    patchQueryStatus baseStore procUser 0 5 ⟨some QueryStatus.closed⟩ =
      (⟨404, "Query not found"⟩, baseStore) :=
  ⟨by decide,
    (c8_not_found_before_authorization baseStore procUser 0 5 ⟨some "hi"⟩
      ⟨some QueryStatus.closed⟩ (by decide) (by decide) (by decide)).1,
    ((c8_not_found_before_authorization baseStore procUser 0 5 ⟨some "hi"⟩
      ⟨some QueryStatus.closed⟩ (by decide) (by decide) (by decide)).2.2
      (by decide)).2⟩

/-- C9: for every well-formed `POST /api/forgot-password` request the
response is HTTP 200 with the fixed body "If an account exists with that
email, you will receive a password reset link" — the response is a constant,
independent of the store, so two runs on stores with and without a matching
account are indistinguishable from the response alone; only the store-side
effects (token creation, email delivery) differ. -/
theorem c9_forgot_password_constant_response (emailOk : String → Bool)
    (now : Nat) (tok : String) (b : ForgotBody) (e : String) (ro : Role)
    (he : b.email = some e) (hok : emailOk e = true)
    (hro : b.role = some ro) :
    (∀ s1 s2 : Store, (forgotPassword emailOk s1 now tok b).1 =
      (forgotPassword emailOk s2 now tok b).1) ∧
    (∀ s : Store,
      (forgotPassword emailOk s now tok b).1 = ⟨200, forgotMsg⟩) := by
  have hparse : forgotSchemaAccepts emailOk b = true := by
    simp [forgotSchemaAccepts, he, hok, hro]
  have key : ∀ s : Store,
      (forgotPassword emailOk s now tok b).1 = ⟨200, forgotMsg⟩ := by
    intro s
    unfold forgotPassword
    rw [hparse]
    simp only [Bool.not_true, Bool.false_eq_true, if_false, ite_false]
    cases getUserByEmail s (b.email.getD "") with
    | none => rfl
    | some u =>
      by_cases hr : u.role = b.role.getD Role.student <;> simp [hr]
  exact ⟨fun s1 s2 => (key s1).trans (key s2).symm, key⟩

/-- C9 witness: the same request against a store whose user list contains a
matching account and one whose user list is empty draws the same response. -/
theorem c9_forgot_password_constant_response_witness :
    (fun _ : String => true) "stu@example.com" = true ∧
    (forgotPassword (fun _ => true) baseStore 0 "t1"
        ⟨some "stu@example.com", some Role.student⟩).1 =
      (forgotPassword (fun _ => true) { baseStore with users := [] } 0 "t1"
        ⟨some "stu@example.com", some Role.student⟩).1 :=
  ⟨rfl,
    (c9_forgot_password_constant_response (fun _ => true) 0 "t1"
      ⟨some "stu@example.com", some Role.student⟩ "stu@example.com"
      Role.student rfl rfl rfl).1 baseStore { baseStore with users := [] }⟩

/-- C10: when the credentials of a `POST /api/login` request are valid (the
email resolves to a user and the password comparison succeeds) but the
stored role differs from the requested role, the handler answers 403 with
"Authentication failed. You are not a <role>." and establishes no session;
when the roles agree it answers 200 and establishes the session. -/
theorem c10_login_role_mismatch (emailOk : String → Bool)
    (cmp : String → String → Bool) (s : Store) (b : LoginBody) (u : User)
    (e pw : String) (ro : Role)
    (he : b.email = some e) (hpw : b.password = some pw)
    (hro : b.role = some ro)
    (hparse : loginSchemaAccepts emailOk b = true)
    (hu : getUserByEmail s e = some u)
    (hcmp : cmp pw u.password = true) :
    (u.role ≠ ro →
      login emailOk cmp s b =
        (⟨403, "Authentication failed. You are not a " ++ roleName ro ++ "."⟩,
          none)) ∧
    (u.role = ro → login emailOk cmp s b = (⟨200, ""⟩, some u.id)) := by
  have hbe : b.email.getD "" = e := by rw [he]; rfl
  have hbp : b.password.getD "" = pw := by rw [hpw]; rfl
  have hbr : b.role.getD Role.student = ro := by rw [hro]; rfl
  constructor
  · intro hne
    unfold login
    rw [hparse]
    simp only [Bool.not_true, Bool.false_eq_true, if_false, ite_false,
      hbe, hbp, hbr]
    rw [hu]
    simp [hcmp, hne]
  · intro heq
    unfold login
    rw [hparse]
    simp only [Bool.not_true, Bool.false_eq_true, if_false, ite_false,
      hbe, hbp, hbr]
    rw [hu]
    simp [hcmp, heq]

/-- C10 witness: `stuUser` logging in with the right password but requesting
the proctor role is refused with 403 and no session. -/
theorem c10_login_role_mismatch_witness :
    stuUser.role ≠ Role.proctor ∧
    login (fun _ => true) (fun a b => a == b) baseStore
        ⟨some "stu@example.com", some "stuhash.salt", some Role.proctor⟩ =
      (⟨403, "Authentication failed. You are not a proctor."⟩, none) :=
  ⟨by decide,
    (c10_login_role_mismatch (fun _ => true) (fun a b => a == b) baseStore
      ⟨some "stu@example.com", some "stuhash.salt", some Role.proctor⟩
      stuUser "stu@example.com" "stuhash.salt" Role.proctor rfl rfl rfl
      (by decide) (by decide) (by decide)).1 (by decide)⟩

/-- C4: every per-course percentage of `GET /api/student/attendance` equals
present count over total count times 100, rounded to 2 decimal places
(`specCoursePct`); the overall percentage is the same formula over the full
unfiltered row set (`specOverallPct`) — so it is weighted by class count —
and so is the per-student percentage of `GET /api/proctor/students`; an
empty row set yields 0, not a division error; and the overall figure is NOT
in general the unweighted average of the per-course percentages. -/
theorem c4_attendance_percentage_formula (rows : List AttendanceRow) :
    (∀ c t p q, (c, t, p, q) ∈ studentAttendanceCourseWise rows →
      q = specCoursePct rows c) ∧
    (studentAttendanceOverall rows).2.2 = specOverallPct rows ∧
    proctorStudentPct rows = specOverallPct rows ∧
    proctorStudentPct [] = 0 ∧
    (studentAttendanceOverall ([] : List AttendanceRow)).2.2 = 0 ∧
    ¬ (∀ rs : List AttendanceRow,
        (studentAttendanceOverall rs).2.2 = avgCoursePcts rs) := by
  refine ⟨?_, ?_, ?_, rfl, rfl, ?_⟩
  · intro c t p q hm
    unfold studentAttendanceCourseWise at hm
    rcases List.mem_map.mp hm with ⟨pr, hpr, heq⟩
    obtain ⟨hc, ht, hp, hq⟩ : pr.1 = c ∧ pr.2.1 = t ∧ pr.2.2 = p ∧
        pct pr.2.2 pr.2.1 = q := by
      rcases pr with ⟨c1, t1, p1⟩
      simpa [Prod.ext_iff] using heq
    have hpr2 : pr = (c, (t, p)) := by
      rcases pr with ⟨c1, t1, p1⟩
      simp only at hc ht hp
      rw [hc, ht, hp]
    rw [hpr2] at hpr
    have hpr3 : (c, (t, p)) ∈
        gfold (fun r => r.courseName) attUpd attIni rows := hpr
    obtain ⟨hfl, happ⟩ := gfold_mem_gapply (fun r => r.courseName) attUpd
      attIni rows c (t, p) hpr3
    rw [gapply_att_none _ hfl] at happ
    obtain ⟨hT, hP⟩ :
        (rows.filter (fun b => b.courseName == c)).length = t ∧
        ((rows.filter (fun b => b.courseName == c)).filter
          (fun r => r.isPresent)).length = p := by
      simpa using happ
    have ht0 : t ≠ 0 := by
      rw [← hT]
      intro h0
      exact hfl (List.length_eq_zero.mp h0)
    rw [← hq, hp, ht]
    simp only [specCoursePct]
    rw [hT, hP, if_neg ht0]
    simp only [pct]
    rw [if_pos (Nat.pos_of_ne_zero ht0)]
  · simp only [studentAttendanceOverall]
    rw [courseAttendance_total, courseAttendance_present]
    by_cases h0 : rows.length = 0
    · simp [specOverallPct, pct, h0]
    · simp [specOverallPct, pct, h0, Nat.pos_of_ne_zero h0]
  · by_cases h0 : rows.length = 0
    · simp [proctorStudentPct, specOverallPct, pct, h0]
    · simp [proctorStudentPct, specOverallPct, pct, h0,
        Nat.pos_of_ne_zero h0]
  · intro hall
    have hca : courseAttendance attRowsAB = [("A", 1, 1), ("B", 2, 1)] := by
      decide
    have hov : (studentAttendanceOverall attRowsAB).2.2 = pct 2 3 := by
      unfold studentAttendanceOverall
      rw [hca]
      rfl
    have hcw : studentAttendanceCourseWise attRowsAB =
        [("A", 1, 1, pct 1 1), ("B", 2, 1, pct 1 2)] := by
      unfold studentAttendanceCourseWise
      rw [hca]
      rfl
    have h1 := hall attRowsAB
    rw [hov] at h1
    unfold avgCoursePcts at h1
    rw [hcw] at h1
    norm_num [pct, round2, Rat.floor] at h1

/-- C4 witness: on the three-row fixture the percentage the endpoint reports
for course A agrees with the spec formula. -/
theorem c4_attendance_percentage_formula_witness :
    ("A", 1, 1, pct 1 1) ∈ studentAttendanceCourseWise attRowsAB ∧
    pct 1 1 = specCoursePct attRowsAB "A" := by
  have hca : courseAttendance attRowsAB = [("A", 1, 1), ("B", 2, 1)] := by
    decide
  have hcw : studentAttendanceCourseWise attRowsAB =
      [("A", 1, 1, pct 1 1), ("B", 2, 1, pct 1 2)] := by
    unfold studentAttendanceCourseWise
    rw [hca]
    rfl
  have hm : ("A", 1, 1, pct 1 1) ∈ studentAttendanceCourseWise attRowsAB := by
    rw [hcw]
    exact List.mem_cons_self _ _
  exact ⟨hm,
    (c4_attendance_percentage_formula attRowsAB).1 "A" 1 1 (pct 1 1) hm⟩

/-- C7: each subject average of `GET /api/proctor/academic` is the sum of
internal + quiz + project + semester marks (null marks as 0) over the
records of that course across the proctor's students, divided by the number
of contributing records, rounded to 2 decimal places. -/
theorem c7_academic_course_average (s : Store) (u : User) (c : String)
    (a : ℚ) (pp : ProctorProfile)
    (hrole : u.role = Role.proctor)
    (hpp : getProctorProfile s u.id = some pp)
    (hm : (c, a) ∈ (proctorAcademic s u).2) :
    (proctorRecords s pp).filter (fun r => r.courseName == c) ≠ [] ∧
    a = round2
      ((((proctorRecords s pp).filter
          (fun r => r.courseName == c)).map recordScore).sum /
        (((proctorRecords s pp).filter
          (fun r => r.courseName == c)).length : ℚ)) := by
  unfold proctorAcademic at hm
  simp only [hrole, hpp, ne_eq, not_true_eq_false, if_false, ite_false] at hm
  rcases List.mem_map.mp hm with ⟨pr, hpr, heq⟩
  obtain ⟨hc, ha⟩ : pr.1 = c ∧ round2 (pr.2.1 / (pr.2.2 : ℚ)) = a := by
    rcases pr with ⟨c1, x1, n1⟩
    simpa [Prod.ext_iff] using heq
  have hpr2 : pr = (c, (pr.2.1, pr.2.2)) := by
    rcases pr with ⟨c1, x1, n1⟩
    simp only at hc
    rw [hc]
  rw [hpr2] at hpr
  have hpr3 : (c, (pr.2.1, pr.2.2)) ∈
      gfold (fun r => r.courseName) acadUpd acadIni
        (proctorRecords s pp) := hpr
  obtain ⟨hfl, happ⟩ := gfold_mem_gapply (fun r => r.courseName) acadUpd
    acadIni (proctorRecords s pp) c (pr.2.1, pr.2.2) hpr3
  rw [gapply_acad_none _ hfl] at happ
  obtain ⟨hX, hN⟩ :
      (((proctorRecords s pp).filter
        (fun b => b.courseName == c)).map recordScore).sum = pr.2.1 ∧
      ((proctorRecords s pp).filter
        (fun b => b.courseName == c)).length = pr.2.2 := by
    simpa [Prod.ext_iff] using happ
  exact ⟨hfl, by rw [← ha, hX, hN]⟩

/-- C7 witness: on the two-record fixture the Math average reported by the
endpoint is the summed scores over 2, rounded. -/
theorem c7_academic_course_average_witness :
    ∃ a : ℚ, ("Math", a) ∈ (proctorAcademic acadStore procUser).2 ∧
      (proctorRecords acadStore procProfile).filter
        (fun r => r.courseName == "Math") ≠ [] ∧
      a = round2
        ((((proctorRecords acadStore procProfile).filter
            (fun r => r.courseName == "Math")).map recordScore).sum /
          (((proctorRecords acadStore procProfile).filter
            (fun r => r.courseName == "Math")).length : ℚ)) := by
  have hl : (proctorAcademic acadStore procUser).2 =
      [("Math", round2 ((recordScore mathRecord1 + recordScore mathRecord2) /
        ((2 : Nat) : ℚ)))] := rfl
  have hm : ("Math", round2 ((recordScore mathRecord1 +
      recordScore mathRecord2) / ((2 : Nat) : ℚ))) ∈
      (proctorAcademic acadStore procUser).2 := by
    rw [hl]
    exact List.mem_cons_self _ _
  exact ⟨_, hm,
    c7_academic_course_average acadStore procUser "Math" _ procProfile rfl
      rfl hm⟩

end ProctorDiary
